import Mathlib

/-!
Shallow embedding of `wtransport/src/config.rs`: the endpoint configuration
subsystem of the wtransport crate (server/client config builders, IP bind
presets, TLS config factory, DNS resolver default implementation, and the
scoped environment-variable guard used while loading native certificates).

External collaborators (quinn, rustls, tokio) are modelled only to the depth
this module observes them: their configuration objects become records of the
fields this module reads or writes, and their fallible operations become
explicit outcome parameters.
-/

/-- Model of `std::net::Ipv4Addr`: four octets. -/
structure Ipv4Addr where
  o0 : Nat
  o1 : Nat
  o2 : Nat
  o3 : Nat
deriving DecidableEq

/-- Value of `Ipv4Addr::LOCALHOST` (127.0.0.1). -/
def Ipv4Addr.LOCALHOST : Ipv4Addr := ⟨127, 0, 0, 1⟩

/-- Value of `Ipv4Addr::UNSPECIFIED` (0.0.0.0). -/
def Ipv4Addr.UNSPECIFIED : Ipv4Addr := ⟨0, 0, 0, 0⟩

/-- Model of `std::net::Ipv6Addr`: eight 16-bit segments. -/
structure Ipv6Addr where
  s0 : Nat
  s1 : Nat
  s2 : Nat
  s3 : Nat
  s4 : Nat
  s5 : Nat
  s6 : Nat
  s7 : Nat
deriving DecidableEq

/-- Value of `Ipv6Addr::LOCALHOST` (::1). -/
def Ipv6Addr.LOCALHOST : Ipv6Addr := ⟨0, 0, 0, 0, 0, 0, 0, 1⟩

/-- Value of `Ipv6Addr::UNSPECIFIED` (::). -/
def Ipv6Addr.UNSPECIFIED : Ipv6Addr := ⟨0, 0, 0, 0, 0, 0, 0, 0⟩

/-- Model of `std::net::IpAddr`. -/
inductive IpAddr
  | v4 (addr : Ipv4Addr)
  | v6 (addr : Ipv6Addr)
deriving DecidableEq

/-- Model of `std::net::SocketAddrV6` (ip, port, flowinfo, scope_id). -/
structure SocketAddrV6 where
  ip : Ipv6Addr
  port : Nat
  flowinfo : Nat
  scope_id : Nat
deriving DecidableEq

/-- Model of `std::net::SocketAddr`. -/
inductive SocketAddr
  | v4 (ip : Ipv4Addr) (port : Nat)
  | v6 (addr : SocketAddrV6)
deriving DecidableEq

/-- Conversion `SocketAddrV6 -> SocketAddr` (the `address.into()` in the source). -/
def SocketAddrV6.intoSocketAddr (a : SocketAddrV6) : SocketAddr :=
  SocketAddr.v6 a

/-- The `IpBindConfig` enum of `config.rs` (six bind presets). -/
inductive IpBindConfig
  | localV4
  | localV6
  | localDual
  | inAddrAnyV4
  | inAddrAnyV6
  | inAddrAnyDual
deriving DecidableEq

/-- The `Ipv6DualStackConfig` enum of `config.rs`. -/
inductive Ipv6DualStackConfig
  | osDefault
  | deny
  | allow
deriving DecidableEq

/-- `IpBindConfig::into_ip` from `config.rs`. -/
def IpBindConfig.into_ip : IpBindConfig → IpAddr
  | .localV4 => .v4 Ipv4Addr.LOCALHOST
  | .localV6 => .v6 Ipv6Addr.LOCALHOST
  | .localDual => .v6 Ipv6Addr.LOCALHOST
  | .inAddrAnyV4 => .v4 Ipv4Addr.UNSPECIFIED
  | .inAddrAnyV6 => .v6 Ipv6Addr.UNSPECIFIED
  | .inAddrAnyDual => .v6 Ipv6Addr.UNSPECIFIED

/-- `IpBindConfig::into_dual_stack_config` from `config.rs`. -/
def IpBindConfig.into_dual_stack_config : IpBindConfig → Ipv6DualStackConfig
  | .localV4 => .osDefault
  | .inAddrAnyV4 => .osDefault
  | .localV6 => .deny
  | .inAddrAnyV6 => .deny
  | .localDual => .allow
  | .inAddrAnyDual => .allow

/-- Model of `std::time::Duration`: whole seconds plus nanoseconds. -/
structure Duration where
  secs : Nat
  nanos : Nat
deriving DecidableEq

/-- Model of `Duration::as_millis`. -/
def Duration.as_millis (d : Duration) : Nat :=
  d.secs * 1000 + d.nanos / 1000000

/-- Modelled from the spec: the engine's native idle-timeout encoding
(`quinn::IdleTimeout`, a QUIC variable-length integer of milliseconds;
quinn is an external collaborator, not part of src/). A duration is
representable exactly when its millisecond count fits the varint bound
`2^62 - 1`; `try_from` fails otherwise. -/
def IdleTimeout.tryFrom (d : Duration) : Except Unit Nat :=
  if d.as_millis ≤ 2 ^ 62 - 1 then Except.ok d.as_millis else Except.error ()

/-- The `InvalidIdleTimeout` error type of `config.rs` (a unit struct:
it carries no payload, in particular it does not carry the builder back). -/
structure InvalidIdleTimeout
deriving DecidableEq

/-- Model of `quinn::TransportConfig` restricted to the fields this module
writes. Modelled from the spec: the defaults pre-seeded at the
credentials-stage transition are "no idle timeout override, no keep-alive"
(`quinn::TransportConfig::default()` itself is external to src/). -/
structure TransportConfig where
  maxIdleTimeout : Option Nat
  keepAliveInterval : Option Duration
deriving DecidableEq

/-- `TransportConfig::default()` as this module relies on it (see
`TransportConfig` doc comment). -/
def TransportConfig.default : TransportConfig :=
  { maxIdleTimeout := none, keepAliveInterval := none }

/-- `TransportConfig::max_idle_timeout` setter (quinn). -/
def TransportConfig.set_max_idle_timeout (t : TransportConfig) (v : Option Nat) :
    TransportConfig :=
  { t with maxIdleTimeout := v }

/-- `TransportConfig::keep_alive_interval` setter (quinn). -/
def TransportConfig.set_keep_alive_interval (t : TransportConfig) (v : Option Duration) :
    TransportConfig :=
  { t with keepAliveInterval := v }

/-- Modelled from the spec: `wtransport_proto::WEBTRANSPORT_ALPN`, the fixed
application-layer-protocol token (a process-wide byte-string constant defined
in the wtransport-proto crate of this repository, which is not under src/).
Its exact bytes are irrelevant to the claims; what matters is that it is one
fixed constant. -/
def WEBTRANSPORT_ALPN : List Nat := [104, 51]

/-- Model of a DER certificate as rustls receives it. The `parsesOk` flag
records the outcome of rustls's own DER parsing (external to src/), which
`RootCertStore::add` reports as a `Result` that `native_cert_store` ignores. -/
structure RustlsCert where
  der : List Nat
  parsesOk : Bool
deriving DecidableEq

/-- Model of `rustls::RootCertStore`: the list of accepted anchors. -/
structure RootCertStore where
  roots : List RustlsCert
deriving DecidableEq

/-- `RootCertStore::empty()`. -/
def RootCertStore.empty : RootCertStore := ⟨[]⟩

/-- `RootCertStore::add`: the store accepts the certificate when rustls can
parse it and reports an error (ignored by the caller in `config.rs`)
otherwise. -/
def RootCertStore.add (s : RootCertStore) (c : RustlsCert) : RootCertStore :=
  if c.parsesOk then ⟨s.roots ++ [c]⟩ else s

/-- Outcome of `rustls_native_certs::load_native_certs()` (external call):
either a list of DER certificates or an I/O-level failure. -/
inductive LoadResult
  | ok (certs : List RustlsCert)
  | err
deriving DecidableEq

/-- Model of `wtransport::Certificate`: certificate chain plus private key,
already validated by the certificate-loading collaborator. -/
structure Certificate where
  certificates : List (List Nat)
  private_key : List Nat
deriving DecidableEq

/-- Model of `rustls::ServerConfig` restricted to the fields this module
reads or writes: the single-cert credential, client-auth choice and the
ALPN protocol list. -/
structure TlsServerConfig where
  certChain : List (List Nat)
  privateKey : List Nat
  clientAuth : Bool
  alpnProtocols : List (List Nat)
deriving DecidableEq

/-- Server certificate verifier installed in a client TLS configuration:
the safe default, or the verifier of `dangerous_configuration` that accepts
every certificate. -/
inductive ServerVerifier
  | standard
  | noServerVerification
deriving DecidableEq

/-- Model of `rustls::ClientConfig` restricted to the fields this module
reads or writes: root store, client-auth choice, certificate verifier,
ALPN protocol list and key-log switch. -/
structure TlsClientConfig where
  rootStore : RootCertStore
  clientAuth : Bool
  verifier : ServerVerifier
  alpnProtocols : List (List Nat)
  keyLog : Bool
deriving DecidableEq

/-- Model of `Lookup`: the boxed future built by `TokioDnsResolver` around
`tokio::net::lookup_host`. `polls` counts how many times this same
operation has been polled (advancing it), so that replacing the operation
is observationally distinct from re-polling it. -/
structure Lookup where
  host : String
  polls : Nat
deriving DecidableEq

/-- The `TokioDnsResolver` struct of `config.rs`: an optional memoized
in-flight lookup future. -/
structure TokioDnsResolver where
  fut : Option Lookup
deriving DecidableEq

/-- `TokioDnsResolver::default()`: no lookup in flight. -/
def TokioDnsResolver.default : TokioDnsResolver := ⟨none⟩

/-- `TokioDnsResolver::poll_resolve` from `config.rs`: `get_or_insert_with`
creates the lookup future only when none is memoized, then the memoized
future is polled. Returns the new resolver state and the number of
underlying lookup operations created by this poll (0 or 1). -/
def TokioDnsResolver.poll_resolve (r : TokioDnsResolver) (host : String) :
    TokioDnsResolver × Nat :=
  match r.fut with
  | none => (⟨some ⟨host, 1⟩⟩, 1)
  | some l => (⟨some { l with polls := l.polls + 1 }⟩, 0)

/-- Iterates `poll_resolve` `n` times on the same outstanding request,
accumulating the total number of lookup operations created. -/
def TokioDnsResolver.pollN (r : TokioDnsResolver) (host : String) :
    Nat → TokioDnsResolver × Nat
  | 0 => (r, 0)
  | n + 1 =>
    let (r1, c1) := r.poll_resolve host
    let (r2, c2) := r1.pollN host n
    (r2, c1 + c2)

/-- Model of the boxed `dyn DnsResolver` capability stored in the client
configuration: the default Tokio-backed resolver or a caller-supplied one
(identified by a tag, since its behavior is opaque to this module). -/
inductive DnsResolverBox
  | tokio (state : TokioDnsResolver)
  | custom (tag : Nat)
deriving DecidableEq

/-- The `states::WantsBindAddress` record (empty). -/
structure States.WantsBindAddress
deriving DecidableEq

/-- The `states::WantsCertificate` record (server credentials stage). -/
structure States.WantsCertificate where
  bind_address : SocketAddr
  dual_stack_config : Ipv6DualStackConfig
deriving DecidableEq

/-- The `states::WantsRootStore` record (client credentials stage). -/
structure States.WantsRootStore where
  bind_address : SocketAddr
  dual_stack_config : Ipv6DualStackConfig
deriving DecidableEq

/-- The `states::WantsTransportConfigServer` record (server tuning stage). -/
structure States.WantsTransportConfigServer where
  bind_address : SocketAddr
  dual_stack_config : Ipv6DualStackConfig
  tls_config : TlsServerConfig
  transport_config : TransportConfig
  migration : Bool
deriving DecidableEq

/-- The `states::WantsTransportConfigClient` record (client tuning stage). -/
structure States.WantsTransportConfigClient where
  bind_address : SocketAddr
  dual_stack_config : Ipv6DualStackConfig
  tls_config : TlsClientConfig
  transport_config : TransportConfig
  dns_resolver : DnsResolverBox
deriving DecidableEq

/-- Model of `quinn::ServerConfig` restricted to the fields this module
writes through `with_crypto`, `transport_config` and `migration`. -/
structure QuicServerConfig where
  crypto : TlsServerConfig
  transport : TransportConfig
  migration : Bool
deriving DecidableEq

/-- Model of `quinn::ClientConfig` restricted to the fields this module
writes through `new` and `transport_config`. -/
structure QuicClientConfig where
  crypto : TlsClientConfig
  transport : TransportConfig
deriving DecidableEq

/-- The `ServerConfig` terminal record of `config.rs`. -/
structure ServerConfig where
  bind_address : SocketAddr
  dual_stack_config : Ipv6DualStackConfig
  quic_config : QuicServerConfig
deriving DecidableEq

/-- The `ClientConfig` terminal record of `config.rs`. -/
structure ClientConfig where
  bind_address : SocketAddr
  dual_stack_config : Ipv6DualStackConfig
  quic_config : QuicClientConfig
  dns_resolver : DnsResolverBox
deriving DecidableEq

/-- `ServerConfigBuilder::<WantsBindAddress>::with_bind_address`. -/
def ServerConfigBuilder.with_bind_address (_b : States.WantsBindAddress)
    (address : SocketAddr) : States.WantsCertificate :=
  { bind_address := address, dual_stack_config := Ipv6DualStackConfig.osDefault }

/-- `ServerConfigBuilder::<WantsBindAddress>::with_bind_address_v6`. -/
def ServerConfigBuilder.with_bind_address_v6 (_b : States.WantsBindAddress)
    (address : SocketAddrV6) (dual_stack_config : Ipv6DualStackConfig) :
    States.WantsCertificate :=
  { bind_address := address.intoSocketAddr, dual_stack_config := dual_stack_config }

/-- `ServerConfigBuilder::<WantsBindAddress>::with_bind_config`. -/
def ServerConfigBuilder.with_bind_config (b : States.WantsBindAddress)
    (ip_bind_config : IpBindConfig) (listening_port : Nat) :
    States.WantsCertificate :=
  match ip_bind_config.into_ip with
  | .v4 ip => ServerConfigBuilder.with_bind_address b (SocketAddr.v4 ip listening_port)
  | .v6 ip =>
    ServerConfigBuilder.with_bind_address_v6 b ⟨ip, listening_port, 0, 0⟩
      ip_bind_config.into_dual_stack_config

/-- `ServerConfigBuilder::<WantsBindAddress>::with_bind_default`. -/
def ServerConfigBuilder.with_bind_default (b : States.WantsBindAddress)
    (listening_port : Nat) : States.WantsCertificate :=
  ServerConfigBuilder.with_bind_config b IpBindConfig.inAddrAnyDual listening_port

/-- `ServerConfigBuilder::<WantsCertificate>::build_tls_config`: single cert,
no client auth, ALPN forced to the fixed WebTransport token. The
`with_single_cert` expect-assertion cannot fire for the already-validated
input, so the function is total here. -/
def ServerConfigBuilder.build_tls_config (certificate : Certificate) :
    TlsServerConfig :=
  { certChain := certificate.certificates
    privateKey := certificate.private_key
    clientAuth := false
    alpnProtocols := [WEBTRANSPORT_ALPN] }

/-- `ServerConfigBuilder::<WantsCertificate>::with_custom_tls`: stores the
caller's TLS configuration verbatim and seeds the default transport config
and the migration flag. -/
def ServerConfigBuilder.with_custom_tls (b : States.WantsCertificate)
    (tls_config : TlsServerConfig) : States.WantsTransportConfigServer :=
  { bind_address := b.bind_address
    dual_stack_config := b.dual_stack_config
    tls_config := tls_config
    transport_config := TransportConfig.default
    migration := true }

/-- `ServerConfigBuilder::<WantsCertificate>::with_certificate`. -/
def ServerConfigBuilder.with_certificate (b : States.WantsCertificate)
    (certificate : Certificate) : States.WantsTransportConfigServer :=
  ServerConfigBuilder.with_custom_tls b
    (ServerConfigBuilder.build_tls_config certificate)

/-- `ServerConfigBuilder::<WantsTransportConfigServer>::build`. -/
def ServerConfigBuilder.build (b : States.WantsTransportConfigServer) :
    ServerConfig :=
  { bind_address := b.bind_address
    dual_stack_config := b.dual_stack_config
    quic_config :=
      { crypto := b.tls_config
        transport := b.transport_config
        migration := b.migration } }

/-- `ServerConfigBuilder::<WantsTransportConfigServer>::max_idle_timeout`:
converts the optional duration through the engine's encoding; on conversion
failure the call returns `Except.error InvalidIdleTimeout` — the consumed
builder is not part of the error. On success it returns the builder with
only the transport-config idle timeout updated. -/
def ServerConfigBuilder.max_idle_timeout (b : States.WantsTransportConfigServer)
    (idle_timeout : Option Duration) :
    Except InvalidIdleTimeout States.WantsTransportConfigServer :=
  match idle_timeout with
  | none => Except.ok { b with transport_config := b.transport_config.set_max_idle_timeout none }
  | some d =>
    match IdleTimeout.tryFrom d with
    | Except.error _ => Except.error ⟨⟩
    | Except.ok v =>
      Except.ok { b with transport_config := b.transport_config.set_max_idle_timeout (some v) }

/-- `ServerConfigBuilder::<WantsTransportConfigServer>::keep_alive_interval`. -/
def ServerConfigBuilder.keep_alive_interval (b : States.WantsTransportConfigServer)
    (interval : Option Duration) : States.WantsTransportConfigServer :=
  { b with transport_config := b.transport_config.set_keep_alive_interval interval }

/-- `ServerConfigBuilder::<WantsTransportConfigServer>::allow_migration`. -/
def ServerConfigBuilder.allow_migration (b : States.WantsTransportConfigServer)
    (value : Bool) : States.WantsTransportConfigServer :=
  { b with migration := value }

/-- `ClientConfigBuilder::<WantsBindAddress>::with_bind_address`. -/
def ClientConfigBuilder.with_bind_address (_b : States.WantsBindAddress)
    (address : SocketAddr) : States.WantsRootStore :=
  { bind_address := address, dual_stack_config := Ipv6DualStackConfig.osDefault }

/-- `ClientConfigBuilder::<WantsBindAddress>::with_bind_address_v6`. -/
def ClientConfigBuilder.with_bind_address_v6 (_b : States.WantsBindAddress)
    (address : SocketAddrV6) (dual_stack_config : Ipv6DualStackConfig) :
    States.WantsRootStore :=
  { bind_address := address.intoSocketAddr, dual_stack_config := dual_stack_config }

/-- `ClientConfigBuilder::<WantsBindAddress>::with_bind_config` (bind port is 0:
"randomly picked" by the OS). -/
def ClientConfigBuilder.with_bind_config (b : States.WantsBindAddress)
    (ip_bind_config : IpBindConfig) : States.WantsRootStore :=
  match ip_bind_config.into_ip with
  | .v4 ip => ClientConfigBuilder.with_bind_address b (SocketAddr.v4 ip 0)
  | .v6 ip =>
    ClientConfigBuilder.with_bind_address_v6 b ⟨ip, 0, 0, 0⟩
      ip_bind_config.into_dual_stack_config

/-- `ClientConfigBuilder::<WantsBindAddress>::with_bind_default`. -/
def ClientConfigBuilder.with_bind_default (b : States.WantsBindAddress) :
    States.WantsRootStore :=
  ClientConfigBuilder.with_bind_config b IpBindConfig.inAddrAnyDual

/-- Model of the process environment restricted to the one variable this
module ever touches (`SSL_CERT_FILE`): `some v` when the variable is set to
`v`, `none` when it is absent. -/
abbrev EnvVar : Type := Option String

/-- The `utils::VarRestoreGuard` struct: the saved prior value of the
variable (the key is fixed to `SSL_CERT_FILE` in this module). -/
structure VarRestoreGuard where
  value : Option String
deriving DecidableEq

/-- `utils::remove_var_tmp`: saves the variable's current value, removes the
variable, and returns the guard together with the environment as the
guarded section observes it. -/
def remove_var_tmp (env : EnvVar) : VarRestoreGuard × EnvVar :=
  (⟨env⟩, (none : Option String))

/-- `Drop for VarRestoreGuard`: runs exactly once when the guard goes out of
scope; re-sets the variable when a prior value had been saved, and leaves
the (removed) variable untouched when none had been. -/
def VarRestoreGuard.runDrop (g : VarRestoreGuard) (env : EnvVar) : EnvVar :=
  match g.value with
  | some v => some v
  | none => env

/-- `ClientConfigBuilder::<WantsRootStore>::native_cert_store`: acquires the
restore guard, performs the native-certificate load (outcome `res`) with the
variable removed, adds each loaded certificate ignoring per-certificate
errors, leaves the store empty on load failure, and drops the guard on the
single exit path of the scope. Returns the store and the environment after
the call. -/
def ClientConfigBuilder.native_cert_store (env : EnvVar) (res : LoadResult) :
    RootCertStore × EnvVar :=
  let g := (remove_var_tmp env).1
  let envDuring := (remove_var_tmp env).2
  let store :=
    match res with
    | .ok certs => certs.foldl RootCertStore.add RootCertStore.empty
    | .err => RootCertStore.empty
  (store, g.runDrop envDuring)

/-- `ClientConfigBuilder::<WantsRootStore>::build_tls_config`: safe defaults,
given root store, no client auth, ALPN forced to the fixed WebTransport
token. -/
def ClientConfigBuilder.build_tls_config (root_store : RootCertStore) :
    TlsClientConfig :=
  { rootStore := root_store
    clientAuth := false
    verifier := ServerVerifier.standard
    alpnProtocols := [WEBTRANSPORT_ALPN]
    keyLog := false }

/-- `ClientConfigBuilder::<WantsRootStore>::with_custom_tls`: stores the
caller's TLS configuration verbatim and seeds the default transport config
and the default Tokio DNS resolver. -/
def ClientConfigBuilder.with_custom_tls (b : States.WantsRootStore)
    (tls_config : TlsClientConfig) : States.WantsTransportConfigClient :=
  { bind_address := b.bind_address
    dual_stack_config := b.dual_stack_config
    tls_config := tls_config
    transport_config := TransportConfig.default
    dns_resolver := DnsResolverBox.tokio TokioDnsResolver.default }

/-- `ClientConfigBuilder::<WantsRootStore>::with_native_certs`: builds the
TLS configuration over the natively loaded store and transitions to the
tuning stage; `env` and `res` make the ambient environment variable and the
external load outcome explicit. -/
def ClientConfigBuilder.with_native_certs (b : States.WantsRootStore)
    (env : EnvVar) (res : LoadResult) :
    States.WantsTransportConfigClient × EnvVar :=
  let sr := ClientConfigBuilder.native_cert_store env res
  (ClientConfigBuilder.with_custom_tls b (ClientConfigBuilder.build_tls_config sr.1), sr.2)

/-- `ClientConfigBuilder::<WantsRootStore>::with_no_cert_validation`: TLS
configuration over an empty root store with the accept-everything verifier
installed. -/
def ClientConfigBuilder.with_no_cert_validation (b : States.WantsRootStore) :
    States.WantsTransportConfigClient :=
  let tls_config :=
    { ClientConfigBuilder.build_tls_config RootCertStore.empty with
        verifier := ServerVerifier.noServerVerification }
  { bind_address := b.bind_address
    dual_stack_config := b.dual_stack_config
    tls_config := tls_config
    transport_config := TransportConfig.default
    dns_resolver := DnsResolverBox.tokio TokioDnsResolver.default }

/-- `ClientConfigBuilder::<WantsTransportConfigClient>::build`. -/
def ClientConfigBuilder.build (b : States.WantsTransportConfigClient) :
    ClientConfig :=
  { bind_address := b.bind_address
    dual_stack_config := b.dual_stack_config
    quic_config := { crypto := b.tls_config, transport := b.transport_config }
    dns_resolver := b.dns_resolver }

/-- `ClientConfigBuilder::<WantsTransportConfigClient>::max_idle_timeout`:
same shape as the server variant; on conversion failure the consumed builder
is not part of the error. -/
def ClientConfigBuilder.max_idle_timeout (b : States.WantsTransportConfigClient)
    (idle_timeout : Option Duration) :
    Except InvalidIdleTimeout States.WantsTransportConfigClient :=
  match idle_timeout with
  | none => Except.ok { b with transport_config := b.transport_config.set_max_idle_timeout none }
  | some d =>
    match IdleTimeout.tryFrom d with
    | Except.error _ => Except.error ⟨⟩
    | Except.ok v =>
      Except.ok { b with transport_config := b.transport_config.set_max_idle_timeout (some v) }

/-- `ClientConfigBuilder::<WantsTransportConfigClient>::keep_alive_interval`. -/
def ClientConfigBuilder.keep_alive_interval (b : States.WantsTransportConfigClient)
    (interval : Option Duration) : States.WantsTransportConfigClient :=
  { b with transport_config := b.transport_config.set_keep_alive_interval interval }

/-- `ClientConfigBuilder::<WantsTransportConfigClient>::dns_resolver`. -/
def ClientConfigBuilder.set_dns_resolver (b : States.WantsTransportConfigClient)
    (resolver : DnsResolverBox) : States.WantsTransportConfigClient :=
  { b with dns_resolver := resolver }

/-- `ClientConfigBuilder::<WantsTransportConfigClient>::enable_key_log`. -/
def ClientConfigBuilder.enable_key_log (b : States.WantsTransportConfigClient) :
    States.WantsTransportConfigClient :=
  { b with tls_config := { b.tls_config with keyLog := true } }

/-- The four `WantsBindAddress`-stage entry points of the server builder,
with their arguments. -/
inductive ServerBindCall
  | withBindDefault (port : Nat)
  | withBindConfig (cfg : IpBindConfig) (port : Nat)
  | withBindAddress (addr : SocketAddr)
  | withBindAddressV6 (addr : SocketAddrV6) (ds : Ipv6DualStackConfig)
deriving DecidableEq

/-- Applies a server bind-stage call to the (unique, empty) initial builder
state. -/
def ServerBindCall.apply : ServerBindCall → States.WantsCertificate
  | .withBindDefault port => ServerConfigBuilder.with_bind_default ⟨⟩ port
  | .withBindConfig cfg port => ServerConfigBuilder.with_bind_config ⟨⟩ cfg port
  | .withBindAddress addr => ServerConfigBuilder.with_bind_address ⟨⟩ addr
  | .withBindAddressV6 addr ds => ServerConfigBuilder.with_bind_address_v6 ⟨⟩ addr ds

/-- The four `WantsBindAddress`-stage entry points of the client builder,
with their arguments. -/
inductive ClientBindCall
  | withBindDefault
  | withBindConfig (cfg : IpBindConfig)
  | withBindAddress (addr : SocketAddr)
  | withBindAddressV6 (addr : SocketAddrV6) (ds : Ipv6DualStackConfig)
deriving DecidableEq

/-- Applies a client bind-stage call to the (unique, empty) initial builder
state. -/
def ClientBindCall.apply : ClientBindCall → States.WantsRootStore
  | .withBindDefault => ClientConfigBuilder.with_bind_default ⟨⟩
  | .withBindConfig cfg => ClientConfigBuilder.with_bind_config ⟨⟩ cfg
  | .withBindAddress addr => ClientConfigBuilder.with_bind_address ⟨⟩ addr
  | .withBindAddressV6 addr ds => ClientConfigBuilder.with_bind_address_v6 ⟨⟩ addr ds

/-- Projection extracting the builder carried back by a `max_idle_timeout`
result: `some` of the builder on success, `none` on failure (the
`InvalidIdleTimeout` error constructor carries no builder payload). -/
def returnedBuilder {σ : Type} : Except InvalidIdleTimeout σ → Option σ
  | .ok s => some s
  | .error _ => none

/-- A concrete server tuning-stage builder used for concrete evaluations. -/
def sampleServerTuning : States.WantsTransportConfigServer :=
  { bind_address := SocketAddr.v4 Ipv4Addr.LOCALHOST 443
    dual_stack_config := Ipv6DualStackConfig.osDefault
    tls_config := ServerConfigBuilder.build_tls_config ⟨[[1, 2, 3]], [4, 5, 6]⟩
    transport_config := TransportConfig.default
    migration := true }

/-- A concrete duration whose millisecond count exceeds the varint bound
`2^62 - 1`, hence is not representable as an idle timeout. -/
def hugeDuration : Duration := ⟨2 ^ 62, 0⟩

/-- C3: for every one of the six bind presets, `into_ip` and
`into_dual_stack_config` return exactly the (address, dual-stack policy)
pair of the spec's table: LocalV4 -> (loopback v4, OS default),
LocalV6 -> (loopback v6, deny), LocalDual -> (loopback v6, allow),
AnyV4 -> (unspecified v4, OS default), AnyV6 -> (unspecified v6, deny),
AnyDual -> (unspecified v6, allow); both functions are pure and total by
construction. -/
theorem bind_policy_resolve_table :
    IpBindConfig.localV4.into_ip = IpAddr.v4 Ipv4Addr.LOCALHOST ∧
    IpBindConfig.localV4.into_dual_stack_config = Ipv6DualStackConfig.osDefault ∧
    IpBindConfig.localV6.into_ip = IpAddr.v6 Ipv6Addr.LOCALHOST ∧
    IpBindConfig.localV6.into_dual_stack_config = Ipv6DualStackConfig.deny ∧
    IpBindConfig.localDual.into_ip = IpAddr.v6 Ipv6Addr.LOCALHOST ∧
    IpBindConfig.localDual.into_dual_stack_config = Ipv6DualStackConfig.allow ∧
    IpBindConfig.inAddrAnyV4.into_ip = IpAddr.v4 Ipv4Addr.UNSPECIFIED ∧
    IpBindConfig.inAddrAnyV4.into_dual_stack_config = Ipv6DualStackConfig.osDefault ∧
    IpBindConfig.inAddrAnyV6.into_ip = IpAddr.v6 Ipv6Addr.UNSPECIFIED ∧
    IpBindConfig.inAddrAnyV6.into_dual_stack_config = Ipv6DualStackConfig.deny ∧
    IpBindConfig.inAddrAnyDual.into_ip = IpAddr.v6 Ipv6Addr.UNSPECIFIED ∧
    IpBindConfig.inAddrAnyDual.into_dual_stack_config = Ipv6DualStackConfig.allow := by
  decide

/-- C8: `build()` freezes the accumulated fields verbatim: the resulting
config's bind address and dual-stack policy equal the builder's, the quic
config carries exactly the accumulated TLS and transport configurations
(and, server only, the migration flag; client only, the DNS resolver), and
nothing else is changed — stated as a full characterization of the result. -/
theorem build_freezes_accumulated_fields :
    (∀ b : States.WantsTransportConfigServer,
      ServerConfigBuilder.build b =
        { bind_address := b.bind_address
          dual_stack_config := b.dual_stack_config
          quic_config :=
            { crypto := b.tls_config
              transport := b.transport_config
              migration := b.migration } }) ∧
    (∀ b : States.WantsTransportConfigClient,
      ClientConfigBuilder.build b =
        { bind_address := b.bind_address
          dual_stack_config := b.dual_stack_config
          quic_config := { crypto := b.tls_config, transport := b.transport_config }
          dns_resolver := b.dns_resolver }) :=
  ⟨fun _ => rfl, fun _ => rfl⟩

/-- C9: `with_bind_default` (server: given port; client: port 0) is exactly
`with_bind_config` with the `InAddrAnyDual` preset, and the resulting
credentials-stage state has bind address = unspecified IPv6 with the given
port and dual-stack policy = Allow. -/
theorem with_bind_default_is_any_dual :
    (∀ (b : States.WantsBindAddress) (port : Nat),
      ServerConfigBuilder.with_bind_default b port =
        ServerConfigBuilder.with_bind_config b IpBindConfig.inAddrAnyDual port ∧
      ServerConfigBuilder.with_bind_default b port =
        { bind_address := SocketAddr.v6 ⟨Ipv6Addr.UNSPECIFIED, port, 0, 0⟩
          dual_stack_config := Ipv6DualStackConfig.allow }) ∧
    (∀ b : States.WantsBindAddress,
      ClientConfigBuilder.with_bind_default b =
        ClientConfigBuilder.with_bind_config b IpBindConfig.inAddrAnyDual ∧
      ClientConfigBuilder.with_bind_default b =
        { bind_address := SocketAddr.v6 ⟨Ipv6Addr.UNSPECIFIED, 0, 0, 0⟩
          dual_stack_config := Ipv6DualStackConfig.allow }) :=
  ⟨fun _ _ => ⟨rfl, rfl⟩, fun _ => ⟨rfl, rfl⟩⟩

/-- C1 counterexample: at a concrete tuning-stage builder and a concrete
unrepresentable duration, `max_idle_timeout` evaluates to the bare
`InvalidIdleTimeout` error; the result carries no builder back
(`returnedBuilder` is `none`, not `some` of the input builder), so the
claim that "the builder is returned to the caller ... so the caller can
retry on the same builder" fails on the failure path. -/
theorem max_idle_timeout_no_builder_on_failure :
    ServerConfigBuilder.max_idle_timeout sampleServerTuning (some hugeDuration) =
      Except.error ⟨⟩ ∧
    returnedBuilder
      (ServerConfigBuilder.max_idle_timeout sampleServerTuning (some hugeDuration)) =
      none ∧
    returnedBuilder
      (ServerConfigBuilder.max_idle_timeout sampleServerTuning (some hugeDuration)) ≠
      some sampleServerTuning := by
  refine ⟨rfl, rfl, ?_⟩
  intro h
  rw [show returnedBuilder (ServerConfigBuilder.max_idle_timeout sampleServerTuning
    (some hugeDuration)) = none from rfl] at h
  exact Option.noConfusion h

/-- C1 (amended): for every tuning-stage builder (server or client) and
every duration whose millisecond count exceeds the representable maximum,
`max_idle_timeout(Some(d))` fails with the `InvalidIdleTimeout` error
without having modified any accumulated field (the conversion failure
precedes the transport-config write), but the builder is consumed by the
call and is not carried back with the error, so retrying requires
reconstructing a builder. -/
theorem max_idle_timeout_unrepresentable_fails :
    ∀ d : Duration, ¬ d.as_millis ≤ 2 ^ 62 - 1 →
      (∀ b : States.WantsTransportConfigServer,
        ServerConfigBuilder.max_idle_timeout b (some d) = Except.error ⟨⟩) ∧
      (∀ b : States.WantsTransportConfigClient,
        ClientConfigBuilder.max_idle_timeout b (some d) = Except.error ⟨⟩) := by
  intro d h
  have ht : IdleTimeout.tryFrom d = Except.error () := by
    unfold IdleTimeout.tryFrom
    rw [if_neg h]
  constructor
  · intro b
    simp [ServerConfigBuilder.max_idle_timeout, ht]
  · intro b
    simp [ClientConfigBuilder.max_idle_timeout, ht]

/-- Witness for `max_idle_timeout_unrepresentable_fails` at the concrete
unrepresentable duration and a concrete builder. -/
theorem max_idle_timeout_unrepresentable_fails_witness :
    ¬ hugeDuration.as_millis ≤ 2 ^ 62 - 1 ∧
    ServerConfigBuilder.max_idle_timeout sampleServerTuning (some hugeDuration) =
      Except.error ⟨⟩ :=
  ⟨by decide,
   (max_idle_timeout_unrepresentable_fails hugeDuration (by decide)).1 sampleServerTuning⟩

/-- C2 counterexample: a concrete caller-supplied TLS configuration with an
empty ALPN list passes through `with_custom_tls` verbatim, so on the
`with_custom_tls` path the resulting TLS configuration's ALPN list is not
the single fixed WebTransport token. -/
theorem with_custom_tls_alpn_not_forced :
    (ServerConfigBuilder.with_custom_tls
        { bind_address := SocketAddr.v4 Ipv4Addr.UNSPECIFIED 443
          dual_stack_config := Ipv6DualStackConfig.osDefault }
        { certChain := [], privateKey := [], clientAuth := false,
          alpnProtocols := [] }).tls_config.alpnProtocols ≠
      [WEBTRANSPORT_ALPN] := by
  decide

/-- C2 (amended): every credential path that goes through the TLS
configuration factory (server `with_certificate` / `build_tls_config`,
client `build_tls_config`, `with_native_certs`, `with_no_cert_validation`)
yields a TLS configuration whose ALPN list is exactly the single fixed
WebTransport token; the `with_custom_tls` escape hatches instead store the
caller's TLS configuration verbatim, ALPN list included. -/
theorem factory_paths_force_webtransport_alpn :
    (∀ cert : Certificate,
      (ServerConfigBuilder.build_tls_config cert).alpnProtocols = [WEBTRANSPORT_ALPN]) ∧
    (∀ (b : States.WantsCertificate) (cert : Certificate),
      (ServerConfigBuilder.with_certificate b cert).tls_config.alpnProtocols =
        [WEBTRANSPORT_ALPN]) ∧
    (∀ rs : RootCertStore,
      (ClientConfigBuilder.build_tls_config rs).alpnProtocols = [WEBTRANSPORT_ALPN]) ∧
    (∀ (b : States.WantsRootStore) (env : EnvVar) (res : LoadResult),
      ((ClientConfigBuilder.with_native_certs b env res).1).tls_config.alpnProtocols =
        [WEBTRANSPORT_ALPN]) ∧
    (∀ b : States.WantsRootStore,
      (ClientConfigBuilder.with_no_cert_validation b).tls_config.alpnProtocols =
        [WEBTRANSPORT_ALPN]) ∧
    (∀ (b : States.WantsCertificate) (tls : TlsServerConfig),
      (ServerConfigBuilder.with_custom_tls b tls).tls_config = tls) ∧
    (∀ (b : States.WantsRootStore) (tls : TlsClientConfig),
      (ClientConfigBuilder.with_custom_tls b tls).tls_config = tls) :=
  ⟨fun _ => rfl, fun _ _ => rfl, fun _ => rfl, fun _ _ _ => rfl, fun _ => rfl,
   fun _ _ => rfl, fun _ _ => rfl⟩

/-- C4: for every prior state of the `SSL_CERT_FILE` variable (present with
some value, or absent) and every outcome of the native-certificate load
(success or failure), the variable is removed for the duration of the load
(`remove_var_tmp` leaves the guarded section observing `none`), and the
variable's state after `native_cert_store` returns equals its state before
the call. The guard's drop — the single restoration — runs exactly once, on
the one exit path of the scope, by construction of the embedding. -/
theorem native_cert_store_restores_env :
    ∀ (env : EnvVar) (res : LoadResult),
      (remove_var_tmp env).2 = none ∧
      (ClientConfigBuilder.native_cert_store env res).2 = env := by
  intro env res
  refine ⟨rfl, ?_⟩
  cases env with
  | none => rfl
  | some v => rfl

/-- C5: a tuning-stage builder freshly seeded by the credentials-stage
transition (`with_custom_tls`, hence also `with_certificate` and
`with_native_certs`) on which `max_idle_timeout(None)` is called yields
exactly the same builder state back, so `build()` produces the identical
configuration as never calling it; and that configuration's idle-timeout
setting is `none` ("no idle timeout"). -/
theorem max_idle_timeout_none_is_default :
    (∀ (b : States.WantsCertificate) (tls : TlsServerConfig),
      ServerConfigBuilder.max_idle_timeout (ServerConfigBuilder.with_custom_tls b tls)
          none =
        Except.ok (ServerConfigBuilder.with_custom_tls b tls) ∧
      (ServerConfigBuilder.build
          (ServerConfigBuilder.with_custom_tls b tls)).quic_config.transport.maxIdleTimeout =
        none) ∧
    (∀ (b : States.WantsRootStore) (tls : TlsClientConfig),
      ClientConfigBuilder.max_idle_timeout (ClientConfigBuilder.with_custom_tls b tls)
          none =
        Except.ok (ClientConfigBuilder.with_custom_tls b tls) ∧
      (ClientConfigBuilder.build
          (ClientConfigBuilder.with_custom_tls b tls)).quic_config.transport.maxIdleTimeout =
        none) :=
  ⟨fun _ _ => ⟨rfl, rfl⟩, fun _ _ => ⟨rfl, rfl⟩⟩

/-- C6: `with_native_certs` is a total function of the builder, the ambient
variable state and the load outcome — it never surfaces an error: for every
outcome it transitions to the tuning stage carrying the TLS configuration
built over the loaded store, and when the native-certificate load fails the
resulting trust store is simply empty. -/
theorem with_native_certs_never_fails :
    ∀ (b : States.WantsRootStore) (env : EnvVar) (res : LoadResult),
      (ClientConfigBuilder.with_native_certs b env res).1 =
        ClientConfigBuilder.with_custom_tls b
          (ClientConfigBuilder.build_tls_config
            (ClientConfigBuilder.native_cert_store env res).1) ∧
      (ClientConfigBuilder.with_native_certs b env LoadResult.err).1.tls_config.rootStore =
        RootCertStore.empty :=
  fun _ _ _ => ⟨rfl, rfl⟩

/-- Helper: once a lookup for `host` is memoized with `k` polls already
performed, `n` further polls create no new lookup and only advance the same
memoized operation by `n` polls. -/
theorem pollN_memoized (host : String) (k n : Nat) :
    TokioDnsResolver.pollN ⟨some ⟨host, k⟩⟩ host n = (⟨some ⟨host, k + n⟩⟩, 0) := by
  induction n generalizing k with
  | zero => rfl
  | succ n ih =>
    have hk : k + (n + 1) = (k + 1) + n := by omega
    rw [hk]
    simpa [TokioDnsResolver.pollN, TokioDnsResolver.poll_resolve] using ih (k + 1)

/-- C7: polling the default (Tokio-backed) resolver `n ≥ 1` times on the
same outstanding hostname creates the underlying lookup operation exactly
once (on the first poll) and every subsequent poll advances that same
memoized operation: the final state holds the operation created from `host`
with `n` accumulated polls, and the total number of lookup creations is 1. -/
theorem tokio_poll_resolve_memoizes :
    ∀ (host : String) (n : Nat), 0 < n →
      TokioDnsResolver.pollN TokioDnsResolver.default host n =
        (⟨some ⟨host, n⟩⟩, 1) := by
  intro host n hn
  cases n with
  | zero => exact absurd hn (by decide)
  | succ m =>
    have h1 : TokioDnsResolver.poll_resolve TokioDnsResolver.default host =
        (⟨some ⟨host, 1⟩⟩, 1) := rfl
    have hm : (1 : Nat) + m = m + 1 := by omega
    simp [TokioDnsResolver.pollN, TokioDnsResolver.poll_resolve,
      TokioDnsResolver.default, pollN_memoized, hm]

/-- Witness for `tokio_poll_resolve_memoizes`: two polls before completion
perform exactly one underlying lookup. -/
theorem tokio_poll_resolve_memoizes_witness :
    0 < 2 ∧
    TokioDnsResolver.pollN TokioDnsResolver.default "localhost" 2 =
      (⟨some ⟨"localhost", 2⟩⟩, 1) :=
  ⟨by decide, tokio_poll_resolve_memoizes "localhost" 2 (by decide)⟩

/-- C10: `with_bind_address` (server and client) records the dual-stack
policy `OsDefault` for every socket address, IPv6 addresses included; and
whenever any bind-stage entry point records a policy other than `OsDefault`,
that entry point was `with_bind_address_v6` or a bind-policy preset
(`with_bind_config` / `with_bind_default`) — never `with_bind_address`. -/
theorem with_bind_address_records_os_default :
    (∀ (b : States.WantsBindAddress) (addr : SocketAddr),
      (ServerConfigBuilder.with_bind_address b addr).dual_stack_config =
        Ipv6DualStackConfig.osDefault) ∧
    (∀ (b : States.WantsBindAddress) (addr : SocketAddr),
      (ClientConfigBuilder.with_bind_address b addr).dual_stack_config =
        Ipv6DualStackConfig.osDefault) ∧
    (∀ c : ServerBindCall,
      c.apply.dual_stack_config ≠ Ipv6DualStackConfig.osDefault →
        (∃ a ds, c = ServerBindCall.withBindAddressV6 a ds) ∨
        (∃ cfg p, c = ServerBindCall.withBindConfig cfg p) ∨
        (∃ p, c = ServerBindCall.withBindDefault p)) ∧
    (∀ c : ClientBindCall,
      c.apply.dual_stack_config ≠ Ipv6DualStackConfig.osDefault →
        (∃ a ds, c = ClientBindCall.withBindAddressV6 a ds) ∨
        (∃ cfg, c = ClientBindCall.withBindConfig cfg) ∨
        c = ClientBindCall.withBindDefault) := by
  refine ⟨fun _ _ => rfl, fun _ _ => rfl, ?_, ?_⟩
  · intro c hc
    cases c with
    | withBindDefault p => exact Or.inr (Or.inr ⟨p, rfl⟩)
    | withBindConfig cfg p => exact Or.inr (Or.inl ⟨cfg, p, rfl⟩)
    | withBindAddress addr => exact absurd rfl hc
    | withBindAddressV6 addr ds => exact Or.inl ⟨addr, ds, rfl⟩
  · intro c hc
    cases c with
    | withBindDefault => exact Or.inr (Or.inr rfl)
    | withBindConfig cfg => exact Or.inr (Or.inl ⟨cfg, rfl⟩)
    | withBindAddress addr => exact absurd rfl hc
    | withBindAddressV6 addr ds => exact Or.inl ⟨addr, ds, rfl⟩

/-- Witness for `with_bind_address_records_os_default` at a concrete
`with_bind_address_v6` call with the Deny policy. -/
theorem with_bind_address_records_os_default_witness :
    (ServerBindCall.withBindAddressV6 ⟨Ipv6Addr.LOCALHOST, 4433, 0, 0⟩
        Ipv6DualStackConfig.deny).apply.dual_stack_config ≠
      Ipv6DualStackConfig.osDefault ∧
    ((∃ a ds,
        ServerBindCall.withBindAddressV6 ⟨Ipv6Addr.LOCALHOST, 4433, 0, 0⟩
            Ipv6DualStackConfig.deny =
          ServerBindCall.withBindAddressV6 a ds) ∨
      (∃ cfg p,
        ServerBindCall.withBindAddressV6 ⟨Ipv6Addr.LOCALHOST, 4433, 0, 0⟩
            Ipv6DualStackConfig.deny =
          ServerBindCall.withBindConfig cfg p) ∨
      (∃ p,
        ServerBindCall.withBindAddressV6 ⟨Ipv6Addr.LOCALHOST, 4433, 0, 0⟩
            Ipv6DualStackConfig.deny =
          ServerBindCall.withBindDefault p)) :=
  ⟨by decide,
   with_bind_address_records_os_default.2.2.1
     (ServerBindCall.withBindAddressV6 ⟨Ipv6Addr.LOCALHOST, 4433, 0, 0⟩
       Ipv6DualStackConfig.deny)
     (by decide)⟩
